import Mathlib

/-!
# SBX Fantasy — verification of the Results Ingestion & Scoring pipeline

Shallow embedding of the backend of `sbx_fantasy_fullstack_starter_node_react.jsx`:
the points engine (`calculatePointsForResult`), the `/api/results` ingestion
endpoint with its auth gate, the `/api/standings` aggregator, and the
`/api/auth/register` endpoint.

Modelling conventions:
* SQL tables become Lean lists of row structures; `INSERT` appends.
* JavaScript values that may be absent or `null` become `Option`.
* JS falsiness of a numeric field (`!raceId` is true for `0`, `null`,
  `undefined`) is modelled explicitly: `none` for absent/null, `some 0`
  for a present zero.
* Points are `Int` (JS numbers restricted to the integers actually produced),
  so non-negativity is a theorem, not a typing artifact.
-/

/-- A race-result entry as submitted to the ingestion endpoint:
`{ athleteId, place, time }`.  `place` is `none` when the field is absent or
`null`; `time` (unused by any active scoring rule) is likewise optional. -/
structure ResultEntry where
  athleteId : Int
  place : Option Int
  time : Option Int
  deriving DecidableEq, Repr

/-- Embedding of `backend/pointsEngine.js` — the `placePoints` object: mapping from
finishing position to points.  `none` models a key absent from the object
(lookup yields `undefined`). -/
def placePoints (p : Int) : Option Int :=
  if p = 1 then some 100
  else if p = 2 then some 80
  else if p = 3 then some 65
  else if p = 4 then some 55
  else if p = 5 then some 45
  else if p = 6 then some 40
  else if p = 7 then some 36
  else if p = 8 then some 32
  else none

/-- Embedding of `backend/pointsEngine.js` — `calculatePointsForResult(result)`:
`let pts = 0; if (placePoints[result.place]) pts += placePoints[result.place];
return pts`.  The JS truthiness test (`undefined` and `0` are falsy) is kept:
the branch fires only when the lookup hits and the value is nonzero. -/
def calculatePointsForResult (result : ResultEntry) : Int :=
  match result.place with
  | none => 0
  | some p =>
    match placePoints p with
    | some v => if v ≠ 0 then 0 + v else 0
    | none => 0

/-- Scoring at a present, non-null integer place (abbreviation used by the
place-table claims; athleteId and time are irrelevant to scoring). -/
def calcPlace (p : Int) : Int :=
  calculatePointsForResult { athleteId := 0, place := some p, time := none }

/-- A row of the `results` table (the SQL `id` column is the list position;
`points` is the value computed at ingestion time). -/
structure ResultRow where
  raceId : Int
  athleteId : Int
  place : Option Int
  time : Option Int
  points : Int
  deriving DecidableEq, Repr

/-- A row of the `fantasy_scores` table. -/
structure FantasyScoreRow where
  athleteId : Int
  raceId : Int
  points : Int
  deriving DecidableEq, Repr

/-- A row of the `athletes` table. -/
structure AthleteRow where
  id : Int
  name : String
  country : String
  deriving DecidableEq, Repr

/-- A row of the `users` table.  `role` defaults to `user` in the schema. -/
structure UserRow where
  id : Int
  email : String
  password : String
  name : String
  role : String
  deriving DecidableEq, Repr

/-- The persistent store: the tables the scoring pipeline touches. -/
structure Store where
  athletes : List AthleteRow
  results : List ResultRow
  fantasyScores : List FantasyScoreRow
  deriving DecidableEq, Repr

def emptyStore : Store := { athletes := [], results := [], fantasyScores := [] }

/-- Body of a POST `/api/results` request: `{ raceId, results }`.
`raceId = none` models an absent or `null` field; `results = none` models a
`results` field that is not an array (absent, null, or of another type). -/
structure ResultsRequest where
  raceId : Option Int
  results : Option (List ResultEntry)
  deriving DecidableEq, Repr

/-- JS falsiness of the `raceId` field: `!raceId` holds for absent, `null`
and `0`. -/
def raceIdFalsy : Option Int → Bool
  | none => true
  | some v => v == 0

/-- The `results` row inserted for one submitted entry
(`INSERT INTO results (raceId, athleteId, place, time, points)`). -/
def mkResultRow (raceId : Int) (r : ResultEntry) : ResultRow :=
  { raceId := raceId, athleteId := r.athleteId, place := r.place,
    time := r.time, points := calculatePointsForResult r }

/-- The `fantasy_scores` row inserted for one submitted entry
(`INSERT INTO fantasy_scores (athleteId, raceId, points)`). -/
def mkFantasyScoreRow (raceId : Int) (r : ResultEntry) : FantasyScoreRow :=
  { athleteId := r.athleteId, raceId := raceId,
    points := calculatePointsForResult r }

/-- The store after the per-entry inserts of one accepted batch. -/
def ingestStore (st : Store) (raceId : Int) (rs : List ResultEntry) : Store :=
  { st with
    results := st.results ++ rs.map (mkResultRow raceId),
    fantasyScores := st.fantasyScores ++ rs.map (mkFantasyScoreRow raceId) }

/-- Handler body of POST `/api/results` (after the auth gate): validate the
payload shape (`if (!raceId || !Array.isArray(results)) return 400`), then for
each entry compute points and insert one `results` row and one
`fantasy_scores` row, in input order. -/
def postResults (st : Store) (req : ResultsRequest) : Except String Store :=
  match req.raceId, req.results with
  | some raceId, some rs =>
    if raceId == 0 then Except.error "raceId + results[] required"
    else Except.ok (ingestStore st raceId rs)
  | _, _ => Except.error "raceId + results[] required"

/-- The payload of a verified JWT: `{ id, email, role }`. -/
structure Token where
  id : Int
  email : String
  role : String
  deriving DecidableEq, Repr

/-- The credential part of a request as seen by `authMiddleware`:
`none` = no Authorization header; `some (Except.error ())` = a header whose
token fails `jwt.verify`; `some (Except.ok t)` = a valid token with payload
`t`. -/
def RequestAuth := Option (Except Unit Token)

/-- HTTP responses of the results endpoint, tagged by status code. -/
inductive ApiResponse where
  /-- Status 401. -/
  | unauthorized (msg : String)
  /-- Status 403. -/
  | forbidden (msg : String)
  /-- Status 400. -/
  | badRequest (msg : String)
  /-- Status 200 with message `Results stored and points calculated`. -/
  | okStored
  deriving DecidableEq, Repr

/-- POST `/api/results` end to end: `authMiddleware` (401 on missing header,
401 on invalid token), `requireAdmin` (403 unless `role === 'admin'`), then
the handler body.  Returns the response together with the resulting store. -/
def postResultsEndpoint (st : Store) (auth : RequestAuth)
    (req : ResultsRequest) : ApiResponse × Store :=
  match auth with
  | none => (ApiResponse.unauthorized "Missing auth", st)
  | some (Except.error _) => (ApiResponse.unauthorized "Invalid token", st)
  | some (Except.ok u) =>
    if u.role = "admin" then
      match postResults st req with
      | Except.error msg => (ApiResponse.badRequest msg, st)
      | Except.ok st2 => (ApiResponse.okStored, st2)
    else (ApiResponse.forbidden "Admin required", st)

/-- An entry of the standings response:
`{ athleteId, name, country, totalPoints }`. -/
structure StandingsEntry where
  athleteId : Int
  name : String
  country : String
  totalPoints : Int
  deriving DecidableEq, Repr

/-- Sum `SUM(fs.points)` over the fantasy-score rows of one athlete
(`IFNULL(...,0)` makes the empty sum 0). -/
def athleteTotal (st : Store) (aid : Int) : Int :=
  ((st.fantasyScores.filter (fun f => f.athleteId == aid)).map
    (fun f => f.points)).sum

/-- The joined, aggregated row for one athlete. -/
def standingsEntryFor (st : Store) (a : AthleteRow) : StandingsEntry :=
  { athleteId := a.id, name := a.name, country := a.country,
    totalPoints := athleteTotal st a.id }

/-- Comparator for `ORDER BY totalPoints DESC`: `x` may precede `y` when `x.totalPoints` is
at least `y.totalPoints`. -/
def standingsLE (x y : StandingsEntry) : Bool :=
  y.totalPoints ≤ x.totalPoints

/-- GET `/api/standings`: `LEFT JOIN` of `athletes` with `fantasy_scores`,
grouped by athlete id (the primary key: one output row per athlete row),
summing points with `IFNULL(...,0)`, ordered by `totalPoints DESC`. -/
def getStandings (st : Store) : List StandingsEntry :=
  (st.athletes.map (standingsEntryFor st)).mergeSort standingsLE

/-- JS falsiness of an optional string field (`!email`): absent, `null`, or
the empty string. -/
def strFalsy : Option String → Bool
  | none => true
  | some s => s == ""

/-- Body of a POST `/api/auth/register` request. -/
structure RegisterRequest where
  email : Option String
  password : Option String
  name : Option String
  deriving DecidableEq, Repr

/-- POST `/api/auth/register`: reject if email or password is falsy; reject
(SQL error propagated as 400) if the `UNIQUE` email constraint fires;
otherwise `INSERT INTO users (email,password,name)` — `role` takes the
schema's `DEFAULT 'user'` — and issue a token
`{ id: this.lastID, email, role: 'user' }`.  `hash` stands for the bcrypt
hash of the password; `newId` is the autoincrement id assigned. -/
def register (users : List UserRow) (req : RegisterRequest) (hash : String)
    (newId : Int) : Except String (List UserRow × Token) :=
  if strFalsy req.email || strFalsy req.password then
    Except.error "Email + password required"
  else
    match req.email with
    | some e =>
      if users.any (fun u => u.email == e) then
        Except.error "UNIQUE constraint failed: users.email"
      else
        Except.ok
          (users ++ [{ id := newId, email := e, password := hash,
                       name := req.name.getD "", role := "user" }],
           { id := newId, email := e, role := "user" })
    | none => Except.error "Email + password required"

/-- A sequence of registration calls, each applied to the store the previous
one left (rejected calls leave the store unchanged). -/
def registerMany (users : List UserRow) :
    List (RegisterRequest × String × Int) → List UserRow
  | [] => users
  | (req, hash, newId) :: rest =>
    match register users req hash newId with
    | Except.ok (users2, _) => registerMany users2 rest
    | Except.error _ => registerMany users rest

/-! ## Theorems -/

/-- C1. For every place `p` in {1..8}, the scoring function returns the
table-defined value (100, 80, 65, 55, 45, 40, 36, 32 for `p` = 1..8), and
these values are monotonically non-increasing as `p` increases across the
defined range. -/
theorem scoring_matches_place_table :
    (calcPlace 1 = 100 ∧ calcPlace 2 = 80 ∧ calcPlace 3 = 65 ∧
     calcPlace 4 = 55 ∧ calcPlace 5 = 45 ∧ calcPlace 6 = 40 ∧
     calcPlace 7 = 36 ∧ calcPlace 8 = 32) ∧
    ∀ p q : Int, 1 ≤ p → p ≤ q → q ≤ 8 → calcPlace q ≤ calcPlace p := by
  constructor
  · refine ⟨by decide, by decide, by decide, by decide, by decide, by decide,
      by decide, by decide⟩
  · intro p q hp hpq hq
    have hp8 : p ≤ 8 := le_trans hpq hq
    have hq1 : 1 ≤ q := le_trans hp hpq
    interval_cases p <;> interval_cases q <;> decide

/-- Witness for `scoring_matches_place_table`: monotonicity at `p = 3`,
`q = 8`. -/
theorem scoring_matches_place_table_witness : calcPlace 8 ≤ calcPlace 3 :=
  scoring_matches_place_table.2 3 8 (by decide) (by decide) (by decide)

/-- C2. For every place outside {1..8} — zero, negative, greater than 8 —
and for an absent/null place, the scoring function returns 0 rather than
raising an error. -/
theorem scoring_unmapped_place_zero :
    (∀ p : Int, p < 1 ∨ 8 < p → calcPlace p = 0) ∧
    (∀ a t, calculatePointsForResult
      { athleteId := a, place := none, time := t } = 0) := by
  constructor
  · intro p hp
    have hnone : placePoints p = none := by
      unfold placePoints
      split_ifs <;> first | omega | rfl
    simp [calcPlace, calculatePointsForResult, hnone]
  · intro a t
    simp [calculatePointsForResult]

/-- Witness for `scoring_unmapped_place_zero`: place 9 scores 0. -/
theorem scoring_unmapped_place_zero_witness : calcPlace 9 = 0 :=
  scoring_unmapped_place_zero.1 9 (Or.inr (by decide))

/-- C3. The scoring function is total and deterministic by construction
(a pure Lean function defined on every `ResultEntry`, malformed places
included), and its value is always a non-negative integer: no input aborts
scoring. -/
theorem scoring_nonneg (r : ResultEntry) : 0 ≤ calculatePointsForResult r := by
  cases hp : r.place with
  | none => simp [calculatePointsForResult, hp]
  | some p =>
    cases hl : placePoints p with
    | none => simp [calculatePointsForResult, hp, hl]
    | some v =>
      have hv : 0 ≤ v := by
        unfold placePoints at hl
        split_ifs at hl <;> simp_all <;> omega
      simp only [calculatePointsForResult, hp, hl]
      split <;> omega

/-- A request whose `raceId` is present but `0`: truthy-wise falsy in JS,
though the race reference is neither absent nor null and `results` is a
(empty) sequence. -/
def zeroRaceReq : ResultsRequest := { raceId := some 0, results := some [] }

/-- C4 (counterexample). The iff of the claim fails: a request
with `raceId` present (the value `0`) and `results` a genuine sequence is
still rejected, because the handler tests JS falsiness (`!raceId`), not
absence. -/
theorem ingest_reject_iff_counterexample :
    postResults emptyStore zeroRaceReq = Except.error "raceId + results[] required" ∧
    zeroRaceReq.raceId ≠ none ∧ zeroRaceReq.results ≠ none := by
  refine ⟨rfl, by decide, by decide⟩

/-- C4 (amended). Under an admin token, the endpoint rejects the batch
with the 400 validation message and leaves the store unchanged **iff** the
race reference is falsy (absent, null, or zero) or the results field is not a
sequence; otherwise it stores the batch and reports success. -/
theorem ingest_reject_iff (tok : Token) (hadm : tok.role = "admin")
    (st : Store) (req : ResultsRequest) :
    (postResultsEndpoint st (some (Except.ok tok)) req
        = (ApiResponse.badRequest "raceId + results[] required", st)
      ↔ (raceIdFalsy req.raceId = true ∨ req.results = none)) ∧
    (¬(raceIdFalsy req.raceId = true ∨ req.results = none) →
      ∃ st2, postResultsEndpoint st (some (Except.ok tok)) req
        = (ApiResponse.okStored, st2)) := by
  obtain ⟨rid, rs⟩ := req
  cases rid with
  | none =>
    simp [postResultsEndpoint, postResults, hadm, raceIdFalsy]
  | some v =>
    cases rs with
    | none =>
      simp [postResultsEndpoint, postResults, hadm, raceIdFalsy]
    | some l =>
      by_cases h0 : v = 0
      · subst h0
        simp [postResultsEndpoint, postResults, hadm, raceIdFalsy]
      · constructor
        · simp [postResultsEndpoint, postResults, hadm, raceIdFalsy, h0]
        · intro h
          refine ⟨ingestStore st v l, ?_⟩
          simp [postResultsEndpoint, postResults, hadm, h0]

/-- Witness for `ingest_reject_iff`: an admin request with no `raceId` field
is rejected with the store untouched. -/
theorem ingest_reject_iff_witness :
    postResultsEndpoint emptyStore
        (some (Except.ok { id := 1, email := "admin@sbx.local", role := "admin" }))
        { raceId := none, results := some [] }
      = (ApiResponse.badRequest "raceId + results[] required", emptyStore) :=
  (ingest_reject_iff { id := 1, email := "admin@sbx.local", role := "admin" }
    rfl emptyStore { raceId := none, results := some [] }).1.mpr (Or.inl rfl)

/-- C8. A request to the results endpoint carrying a valid token whose
role is not admin gets the 403 `Admin required` response; a request with no
Authorization header gets the 401 `Missing auth` response; in both cases the
store — in particular the result rows — is unchanged. -/
theorem results_auth_gate (st : Store) (req : ResultsRequest) :
    (∀ tok : Token, tok.role ≠ "admin" →
      postResultsEndpoint st (some (Except.ok tok)) req
        = (ApiResponse.forbidden "Admin required", st)) ∧
    postResultsEndpoint st none req
      = (ApiResponse.unauthorized "Missing auth", st) := by
  constructor
  · intro tok h
    simp [postResultsEndpoint, h]
  · rfl

/-- Witness for `results_auth_gate`: a concrete non-admin token is refused
with the store untouched. -/
theorem results_auth_gate_witness :
    postResultsEndpoint emptyStore
        (some (Except.ok { id := 2, email := "a@x.com", role := "user" }))
        { raceId := some 1, results := some [] }
      = (ApiResponse.forbidden "Admin required", emptyStore) :=
  (results_auth_gate emptyStore { raceId := some 1, results := some [] }).1
    { id := 2, email := "a@x.com", role := "user" } (by decide)

/-- Number of `results` rows for a given (race, athlete) pair. -/
def countResultPair (rows : List ResultRow) (r a : Int) : Nat :=
  rows.countP (fun row => row.raceId == r && row.athleteId == a)

/-- Number of `fantasy_scores` rows for a given (race, athlete) pair. -/
def countScorePair (rows : List FantasyScoreRow) (r a : Int) : Nat :=
  rows.countP (fun row => row.raceId == r && row.athleteId == a)

/-- C9. If the store already holds a result row for the pair `(r, a)`,
submitting another result for the same pair succeeds and appends one more
`results` row and one more `fantasy_scores` row for that pair — the points
accumulate in the athlete's total — rather than updating, overwriting, or
rejecting: no (raceId, athleteId) uniqueness is enforced. -/
theorem resubmission_accumulates (st : Store) (r a : Int) (hr : r ≠ 0)
    (p t : Option Int)
    (hdup : ∃ row ∈ st.results, row.raceId = r ∧ row.athleteId = a) :
    ∃ st2,
      postResults st { raceId := some r,
                       results := some [{ athleteId := a, place := p, time := t }] }
        = Except.ok st2 ∧
      countResultPair st2.results r a = countResultPair st.results r a + 1 ∧
      countScorePair st2.fantasyScores r a = countScorePair st.fantasyScores r a + 1 ∧
      athleteTotal st2 a
        = athleteTotal st a
          + calculatePointsForResult { athleteId := a, place := p, time := t } := by
  refine ⟨ingestStore st r [{ athleteId := a, place := p, time := t }], ?_, ?_, ?_, ?_⟩
  · simp [postResults, hr]
  · simp [countResultPair, ingestStore, List.countP_append, mkResultRow]
  · simp [countScorePair, ingestStore, List.countP_append, mkFantasyScoreRow]
  · simp [athleteTotal, ingestStore, List.filter_append, mkFantasyScoreRow]

/-- A store that already holds a scored result for athlete 1 in race 1. -/
def dupStore : Store :=
  { athletes := [],
    results := [{ raceId := 1, athleteId := 1, place := some 1, time := none,
                  points := 100 }],
    fantasyScores := [{ athleteId := 1, raceId := 1, points := 100 }] }

/-- Witness for `resubmission_accumulates`: resubmitting athlete 1 / race 1
on `dupStore`. -/
theorem resubmission_accumulates_witness :
    ∃ st2,
      postResults dupStore { raceId := some 1,
                             results := some [{ athleteId := 1, place := some 1,
                                                time := none }] }
        = Except.ok st2 ∧
      countResultPair st2.results 1 1 = countResultPair dupStore.results 1 1 + 1 ∧
      countScorePair st2.fantasyScores 1 1
        = countScorePair dupStore.fantasyScores 1 1 + 1 ∧
      athleteTotal st2 1
        = athleteTotal dupStore 1
          + calculatePointsForResult { athleteId := 1, place := some 1, time := none } :=
  resubmission_accumulates dupStore 1 1 (by decide) (some 1) none (by decide)

/-- Predicate of the claim (same (athleteId, raceId) and an equal points
value), comparing a
fantasy-score row against a result row. -/
def fsMatches (r : ResultRow) (f : FantasyScoreRow) : Bool :=
  f.athleteId == r.athleteId && f.raceId == r.raceId && f.points == r.points

/-- The literal ledger invariant of the claim: every result row has exactly
one matching fantasy-score row. -/
def uniqueLedgerMatch (st : Store) : Prop :=
  ∀ r ∈ st.results, (st.fantasyScores.filter (fsMatches r)).length = 1

/-- State of `dupStore` after resubmitting the same single-entry batch: both ledgers
hold two identical rows. -/
def dupStore2 : Store :=
  { athletes := [],
    results := [{ raceId := 1, athleteId := 1, place := some 1, time := none,
                  points := 100 },
                { raceId := 1, athleteId := 1, place := some 1, time := none,
                  points := 100 }],
    fantasyScores := [{ athleteId := 1, raceId := 1, points := 100 },
                      { athleteId := 1, raceId := 1, points := 100 }] }

/-- C5 (counterexample). Ingesting the batch
`{raceId: 1, results: [{athleteId: 1, place: 1}]}` twice from the empty store
succeeds both times, and in the resulting store the first Result row has
*two* matching FantasyScore rows — "exactly one FantasyScore row with the
same (athleteId, raceId) and equal points" fails, because duplicate
submissions accumulate. -/
theorem unique_ledger_match_counterexample :
    postResults emptyStore
        { raceId := some 1,
          results := some [{ athleteId := 1, place := some 1, time := none }] }
      = Except.ok dupStore ∧
    postResults dupStore
        { raceId := some 1,
          results := some [{ athleteId := 1, place := some 1, time := none }] }
      = Except.ok dupStore2 ∧
    ¬ uniqueLedgerMatch dupStore2 := by
  refine ⟨rfl, rfl, ?_⟩
  unfold uniqueLedgerMatch
  decide

/-- Projection of a result row onto (athleteId, raceId, points). -/
def resultKey (r : ResultRow) : Int × Int × Int := (r.athleteId, r.raceId, r.points)

/-- Projection of a fantasy-score row onto (athleteId, raceId, points). -/
def scoreKey (f : FantasyScoreRow) : Int × Int × Int := (f.athleteId, f.raceId, f.points)

/-- The two ledgers agree row by row on (athleteId, raceId, points): each
Result row is paired with the FantasyScore row created in the same ingestion
step. -/
def ledgerAligned (st : Store) : Prop :=
  st.results.map resultKey = st.fantasyScores.map scoreKey

/-- C5 (amended). Every successful ingestion creates, for each submitted
entry, one Result row and one FantasyScore row with the same
(athleteId, raceId) and equal points in the same step, so the one-to-one
row-by-row correspondence between the two ledgers is preserved.  (Exactly-one
uniqueness per (athleteId, raceId) is *not* maintained once duplicates are
submitted — see the counterexample.) -/
theorem ingestion_aligns_ledger (st st2 : Store) (req : ResultsRequest)
    (hpre : ledgerAligned st) (hok : postResults st req = Except.ok st2) :
    ledgerAligned st2 := by
  obtain ⟨rid, rs⟩ := req
  cases rid with
  | none => simp [postResults] at hok
  | some v =>
    cases rs with
    | none => simp [postResults] at hok
    | some l =>
      by_cases h0 : v = 0
      · subst h0
        simp [postResults] at hok
      · simp [postResults, h0] at hok
        subst hok
        unfold ledgerAligned at hpre ⊢
        simp only [ingestStore, List.map_append, List.map_map, hpre]
        rfl

/-- Witness for `ingestion_aligns_ledger`: the single-batch ingestion from
the empty store keeps the ledgers aligned. -/
theorem ingestion_aligns_ledger_witness : ledgerAligned dupStore :=
  ingestion_aligns_ledger emptyStore dupStore
    { raceId := some 1,
      results := some [{ athleteId := 1, place := some 1, time := none }] }
    rfl rfl

/-- Membership in the standings is exactly the image of the athletes table
under per-athlete aggregation. -/
theorem mem_getStandings (st : Store) (e : StandingsEntry) :
    e ∈ getStandings st ↔ ∃ a ∈ st.athletes, standingsEntryFor st a = e := by
  unfold getStandings
  rw [List.mem_mergeSort, List.mem_map]

/-- C6. The standings are a permutation of one aggregated entry per
athlete row; each athlete's entry is present with
`totalPoints = athleteTotal` (the sum of that athlete's fantasy-score points,
0 when the athlete has no rows); every listed entry's `totalPoints` is that
sum for its athleteId; and the sequence is sorted in descending order of
`totalPoints`. -/
theorem standings_correct (st : Store) :
    (getStandings st).Perm (st.athletes.map (standingsEntryFor st)) ∧
    (∀ a ∈ st.athletes,
      standingsEntryFor st a ∈ getStandings st ∧
      (standingsEntryFor st a).totalPoints = athleteTotal st a.id) ∧
    (∀ e ∈ getStandings st, e.totalPoints = athleteTotal st e.athleteId) ∧
    (getStandings st).Pairwise (fun x y => y.totalPoints ≤ x.totalPoints) := by
  refine ⟨List.mergeSort_perm _ _, ?_, ?_, ?_⟩
  · intro a ha
    exact ⟨(mem_getStandings st _).mpr ⟨a, ha, rfl⟩, rfl⟩
  · intro e he
    obtain ⟨a, _, hae⟩ := (mem_getStandings st e).mp he
    rw [← hae]
    rfl
  · have htrans : ∀ x y z : StandingsEntry,
        standingsLE x y → standingsLE y z → standingsLE x z := by
      intro x y z hxy hyz
      simp only [standingsLE, decide_eq_true_eq] at hxy hyz ⊢
      omega
    have htotal : ∀ x y : StandingsEntry, standingsLE x y || standingsLE y x := by
      intro x y
      simp only [standingsLE, Bool.or_eq_true, decide_eq_true_eq]
      omega
    have h := List.sorted_mergeSort htrans htotal
      (st.athletes.map (standingsEntryFor st))
    exact h.imp (fun hxy => by
      simpa only [standingsLE, decide_eq_true_eq] using hxy)

/-- A store whose athletes table holds athletes 1 and 2 and whose ledgers are
empty. -/
def athleteStore12 : Store :=
  { athletes := [{ id := 1, name := "Jane Doe", country := "USA" },
                 { id := 2, name := "Ada", country := "CAN" }],
    results := [], fantasyScores := [] }

/-- Witness for `standings_correct`: athlete 1 of `athleteStore12` appears in
the standings with its summed total. -/
theorem standings_correct_witness :
    standingsEntryFor athleteStore12 { id := 1, name := "Jane Doe", country := "USA" }
        ∈ getStandings athleteStore12 ∧
    (standingsEntryFor athleteStore12 { id := 1, name := "Jane Doe", country := "USA" }).totalPoints
        = athleteTotal athleteStore12 1 :=
  (standings_correct athleteStore12).2.1
    { id := 1, name := "Jane Doe", country := "USA" } (by decide)

/-- Entries of the round-trip batch of the claim:
`[{athleteId: 1, place: 1}, {athleteId: 2, place: 2}]`. -/
def rtEntries : List ResultEntry :=
  [{ athleteId := 1, place := some 1, time := none },
   { athleteId := 2, place := some 2, time := none }]

/-- Round-trip request `{raceId: R, results: rtEntries}`. -/
def rtReq (R : Int) : ResultsRequest :=
  { raceId := some R, results := some rtEntries }

/-- Store reached by submitting the round-trip batch for race 1 to the empty
store. -/
def rtStore1 : Store :=
  { athletes := [],
    results := [{ raceId := 1, athleteId := 1, place := some 1, time := none,
                  points := 100 },
                { raceId := 1, athleteId := 2, place := some 2, time := none,
                  points := 80 }],
    fantasyScores := [{ athleteId := 1, raceId := 1, points := 100 },
                      { athleteId := 2, raceId := 1, points := 80 }] }

/-- C7 (counterexample). The claim fails for two prior store states: on the
empty store the submission succeeds but the standings (an outer join *from
athletes*) are empty, so no athlete-1 entry with +100 appears at all; and
with the falsy race reference `R = 0` the batch is rejected outright, leaving
totals unchanged. -/
theorem round_trip_counterexample :
    postResults emptyStore (rtReq 1) = Except.ok rtStore1 ∧
    getStandings rtStore1 = [] ∧
    postResults athleteStore12 (rtReq 0)
      = Except.error "raceId + results[] required" := by
  refine ⟨rfl, ?_, rfl⟩
  simp [getStandings, rtStore1]

/-- Ingesting the round-trip batch adds 100 to athlete 1's total. -/
theorem rt_total_one (st : Store) (R : Int) :
    athleteTotal (ingestStore st R rtEntries) 1 = athleteTotal st 1 + 100 := by
  simp [athleteTotal, ingestStore, rtEntries, List.filter_append,
        mkFantasyScoreRow, calculatePointsForResult, placePoints]

/-- Ingesting the round-trip batch adds 80 to athlete 2's total. -/
theorem rt_total_two (st : Store) (R : Int) :
    athleteTotal (ingestStore st R rtEntries) 2 = athleteTotal st 2 + 80 := by
  simp [athleteTotal, ingestStore, rtEntries, List.filter_append,
        mkFantasyScoreRow, calculatePointsForResult, placePoints]

/-- C7 (amended). Provided the race reference is truthy (nonzero) and
athletes 1 and 2 exist in the athletes table, submitting the batch
`{raceId: R, results: [{athleteId: 1, place: 1}, {athleteId: 2, place: 2}]}`
succeeds, and the standings then show an athlete-1 entry with totalPoints
increased by 100 and an athlete-2 entry increased by 80 relative to their
totals before the submission (and every athlete-1 / athlete-2 entry carries
exactly those totals). -/
theorem round_trip_standings (st : Store) (R : Int) (hR : R ≠ 0)
    (h1 : ∃ a ∈ st.athletes, a.id = 1) (h2 : ∃ a ∈ st.athletes, a.id = 2) :
    ∃ st2, postResults st (rtReq R) = Except.ok st2 ∧
      (∃ e ∈ getStandings st2, e.athleteId = 1 ∧
          e.totalPoints = athleteTotal st 1 + 100) ∧
      (∃ e ∈ getStandings st2, e.athleteId = 2 ∧
          e.totalPoints = athleteTotal st 2 + 80) ∧
      (∀ e ∈ getStandings st2,
        (e.athleteId = 1 → e.totalPoints = athleteTotal st 1 + 100) ∧
        (e.athleteId = 2 → e.totalPoints = athleteTotal st 2 + 80)) := by
  obtain ⟨a1, ha1, hid1⟩ := h1
  obtain ⟨a2, ha2, hid2⟩ := h2
  refine ⟨ingestStore st R rtEntries, ?_, ?_, ?_, ?_⟩
  · simp [postResults, rtReq, hR]
  · refine ⟨standingsEntryFor (ingestStore st R rtEntries) a1,
      (mem_getStandings _ _).mpr ⟨a1, ha1, rfl⟩, hid1, ?_⟩
    show athleteTotal (ingestStore st R rtEntries) a1.id
      = athleteTotal st 1 + 100
    rw [hid1, rt_total_one]
  · refine ⟨standingsEntryFor (ingestStore st R rtEntries) a2,
      (mem_getStandings _ _).mpr ⟨a2, ha2, rfl⟩, hid2, ?_⟩
    show athleteTotal (ingestStore st R rtEntries) a2.id
      = athleteTotal st 2 + 80
    rw [hid2, rt_total_two]
  · intro e he
    obtain ⟨a, _, hae⟩ := (mem_getStandings _ e).mp he
    constructor
    · intro hone
      rw [← hae] at hone ⊢
      show athleteTotal (ingestStore st R rtEntries) a.id
        = athleteTotal st 1 + 100
      have hid : a.id = 1 := hone
      rw [hid, rt_total_one]
    · intro htwo
      rw [← hae] at htwo ⊢
      show athleteTotal (ingestStore st R rtEntries) a.id
        = athleteTotal st 2 + 80
      have hid : a.id = 2 := htwo
      rw [hid, rt_total_two]

/-- Witness for `round_trip_standings`: the round trip on `athleteStore12`
with race 1. -/
theorem round_trip_standings_witness :
    ∃ st2, postResults athleteStore12 (rtReq 1) = Except.ok st2 ∧
      (∃ e ∈ getStandings st2, e.athleteId = 1 ∧
          e.totalPoints = athleteTotal athleteStore12 1 + 100) ∧
      (∃ e ∈ getStandings st2, e.athleteId = 2 ∧
          e.totalPoints = athleteTotal athleteStore12 2 + 80) ∧
      (∀ e ∈ getStandings st2,
        (e.athleteId = 1 → e.totalPoints = athleteTotal athleteStore12 1 + 100) ∧
        (e.athleteId = 2 → e.totalPoints = athleteTotal athleteStore12 2 + 80)) :=
  round_trip_standings athleteStore12 1 (by decide) (by decide) (by decide)

/-- Unfolding of one registration step of `registerMany`. -/
theorem registerMany_cons (users : List UserRow) (req : RegisterRequest)
    (hash : String) (newId : Int)
    (rest : List (RegisterRequest × String × Int)) :
    registerMany users ((req, hash, newId) :: rest)
      = match register users req hash newId with
        | Except.ok (users2, _) => registerMany users2 rest
        | Except.error _ => registerMany users rest := rfl

/-- Shape of a successful registration: the issued token carries role `user`
and the store gains exactly one row whose role is the schema default `user`. -/
theorem register_ok_shape (users : List UserRow) (req : RegisterRequest)
    (hash : String) (newId : Int) (users2 : List UserRow) (tok : Token)
    (hok : register users req hash newId = Except.ok (users2, tok)) :
    tok.role = "user" ∧
    ∃ e : String,
      users2 = users ++ [{ id := newId, email := e, password := hash,
                           name := req.name.getD "", role := "user" }] := by
  obtain ⟨em, pw, nm⟩ := req
  cases em with
  | none => simp [register, strFalsy] at hok
  | some e =>
    by_cases hfe : strFalsy (some e) = true
    · simp [register, hfe] at hok
    · by_cases hfp : strFalsy pw = true
      · simp [register, hfp] at hok
      · by_cases hd : users.any (fun u => u.email == e) = true
        · simp [register, hfe, hfp, hd] at hok
        · simp [register, hfe, hfp, hd] at hok
          obtain ⟨hu, ht⟩ := hok
          subst hu
          subst ht
          exact ⟨rfl, e, rfl⟩

/-- C10. Every user created through the registration endpoint has role
`user` — the inserted row takes the table's default role and the issued
token carries role `user` — and no sequence of registration calls can add a
user with role `admin`: any admin present after the sequence was already in
the store (for the bootstrapped initial store, the default admin). -/
theorem register_only_creates_user_role :
    (∀ users req hash newId users2 tok,
      register users req hash newId = Except.ok (users2, tok) →
      tok.role = "user" ∧ ∀ u ∈ users2, u ∈ users ∨ u.role = "user") ∧
    (∀ users calls, ∀ u ∈ registerMany users calls,
      u.role = "admin" → u ∈ users) := by
  constructor
  · intro users req hash newId users2 tok hok
    obtain ⟨htok, e, hshape⟩ := register_ok_shape users req hash newId users2 tok hok
    subst hshape
    refine ⟨htok, ?_⟩
    intro u hu
    rcases List.mem_append.mp hu with h | h
    · exact Or.inl h
    · right
      simp only [List.mem_singleton] at h
      rw [h]
  · intro users calls
    induction calls generalizing users with
    | nil =>
      intro u hu _
      simpa [registerMany] using hu
    | cons c rest ih =>
      obtain ⟨req, hash, newId⟩ := c
      intro u hu hadm
      rw [registerMany_cons] at hu
      split at hu
      · rename_i users2 tk hreg
        have hmem := ih users2 u hu hadm
        obtain ⟨-, e, hshape⟩ :=
          register_ok_shape users req hash newId users2 tk hreg
        subst hshape
        rcases List.mem_append.mp hmem with h | h
        · exact h
        · simp only [List.mem_singleton] at h
          rw [h] at hadm
          have hcontra : ("user" : String) = "admin" := hadm
          exact absurd hcontra (by decide)
      · rename_i msg hreg
        exact ih users u hu hadm

/-- Witness for `register_only_creates_user_role`: registering
`a@x.com` on the empty user table issues a `user` token and stores one
`user` row. -/
theorem register_only_creates_user_role_witness :
    ({ id := 2, email := "a@x.com", role := "user" } : Token).role = "user" ∧
    ∀ u ∈ ([{ id := 2, email := "a@x.com", password := "h", name := "",
              role := "user" }] : List UserRow),
      u ∈ ([] : List UserRow) ∨ u.role = "user" :=
  register_only_creates_user_role.1 []
    { email := some "a@x.com", password := some "pw123", name := none } "h" 2
    [{ id := 2, email := "a@x.com", password := "h", name := "", role := "user" }]
    { id := 2, email := "a@x.com", role := "user" } (by rfl)
